import Mathlib

/-!
Verification development for the combobox/dropdown interaction engine of the
stardust-ui react component library (the `Dropdown` component).

The definitions below are a shallow embedding of the TypeScript source of the
`Dropdown` class: each Lean definition carries the name of the source member it
translates, and JavaScript specifics (truthiness, `Array.indexOf` returning -1,
lodash `_.difference` / `_.findIndex` semantics) are modelled explicitly.
State updates performed through `setState`/`trySetState` become explicit state
passing; handlers invoked through `trySetStateAndInvokeHandler` additionally
return the list of emitted notifications.  Purely visual concerns (focus
handles, render tree, debounce timers) carry no selection logic and are not
part of the state model.
-/

namespace DropdownSpec

/-- An item of the dropdown (TS `ShorthandValue`): an opaque application value,
either a primitive (modelled by its string form) or a structured record with a
`header` field, as in the design notes of the library. -/
inductive Item where
  | prim (s : String)
  | obj (header : String)
deriving DecidableEq, Repr

/-- JavaScript truthiness of an item value: the empty-string primitive is
falsy, a non-empty primitive and any record are truthy. -/
def itemTruthy : Item → Bool
  | .prim s => !(s == "")
  | .obj _ => true

/-- The default `itemToString` prop: for a falsy item returns the empty string;
otherwise returns the `header` field if present (a record), else `String(item)`
(a falsy `header` of a record falls back to `String(item)`, which for a plain
object is the text `[object Object]`). -/
def defaultItemToString : Item → String
  | .prim s => s
  | .obj h => if h == "" then "[object Object]" else h

/-- The committed value (TS `state.value`): a nullable single item in
single-select mode, an ordered collection in multi-select mode. -/
inductive ShVal where
  | one (v : Option Item)
  | many (vs : List Item)
deriving DecidableEq, Repr

/-- The `value as ShorthandCollection` cast used by the multi-select code
paths: in multi mode the value is always a collection. -/
def ShVal.asList : ShVal → List Item
  | .many vs => vs
  | .one _ => []

/-- JavaScript truthiness of the value: `null` and a falsy single item are
falsy, an array (even empty) is truthy. -/
def jsTruthyVal : ShVal → Bool
  | .one none => false
  | .one (some v) => itemTruthy v
  | .many _ => true

/-- The `search` prop: absent/false, boolean true, or a caller-supplied custom
filtering function (TS `search?: boolean | ((items, searchQuery) => items)`). -/
inductive SearchProp where
  | off
  | enabled
  | custom (f : List Item → String → List Item)

/-- JavaScript truthiness of the `search` prop: `false`/`undefined` are falsy,
`true` and a function are truthy. -/
def SearchProp.jsTruthy : SearchProp → Bool
  | .off => false
  | .enabled => true
  | .custom _ => true

/-- The engine owns the filtering (no caller-supplied custom function). -/
def SearchProp.builtin : SearchProp → Prop
  | .custom _ => False
  | _ => True

/-- The props of the component that the interaction engine reads (mode flags
are fixed per instance). -/
structure Config where
  multiple : Bool
  search : SearchProp
  highlightFirstItemOnOpen : Bool
  itemToString : Item → String
  placeholder : Option String
  items : List Item

/-- The owned state bundle (TS `DropdownState`).  `none` models both `null`
and `undefined`; `filteredItems`/`filteredItemStrings` start empty instead of
`undefined`; the purely visual flags (`focused`, `isFromKeyboard`,
`itemIsFromKeyboard`) carry no selection logic and are omitted.  The TS field
`open` is spelled `openState` because `open` is a Lean keyword. -/
structure DState where
  a11ySelectionStatus : String
  activeSelectedIndex : Option Int
  filteredItems : List Item
  filteredItemStrings : List String
  startingString : String
  openState : Bool
  searchQuery : Option String
  highlightedIndex : Option Int
  value : ShVal
deriving Repr

/-- Notifications emitted to the caller through
`trySetStateAndInvokeHandler` / `_.invoke(this.props, ...)`. -/
inductive Event where
  | selectedChange
  | searchQueryChange
  | openChange
deriving DecidableEq, Repr

/-- lodash `_.difference(items, vs)`: the elements of `items` not present in
`vs`, order and duplicates of `items` preserved. -/
def lodashDifference (items vs : List Item) : List Item :=
  items.filter (fun i => decide (i ∉ vs))

/-- JS `hay.toLowerCase().indexOf(needle.toLowerCase()) !== -1` without the
lower-casing: `needle` occurs in `hay` as a substring. -/
def strContains (hay needle : String) : Bool :=
  (List.range (hay.toList.length + 1)).any
    (fun i => needle.toList.isPrefixOf (hay.toList.drop i))

/-- JS `t.toLowerCase()`, character by character (the engine only lower-cases
ASCII item labels and key characters). -/
def jsToLower (t : String) : String :=
  String.mk (t.toList.map Char.toLower)

/-- TS `getAutoControlledStateFromProps` (the Item Filter): recomputes
`filteredItems` from the item collection, the committed value and the search
query; in multi mode the value is removed from the candidates first; with a
custom search function filtering is delegated to it; with boolean search a
case-insensitive substring filter is applied; in non-search mode the
lower-cased string projections are also recomputed for type-ahead use.  The
`searchQuery.getD ""` reads model the fact that the search branches only run
in search mode, where the query is a string. -/
def getAutoControlledStateFromProps (cfg : Config) (s : DState) : DState :=
  let filteredItemsByValue :=
    if cfg.multiple then lodashDifference cfg.items s.value.asList else cfg.items
  match cfg.search with
  | .custom f =>
      { s with filteredItems := f filteredItemsByValue (s.searchQuery.getD "") }
  | .enabled =>
      { s with
        filteredItems := filteredItemsByValue.filter (fun item =>
          strContains (jsToLower (cfg.itemToString item))
            (jsToLower (s.searchQuery.getD ""))) }
  | .off =>
      { s with
        filteredItems := filteredItemsByValue,
        filteredItemStrings := filteredItemsByValue.map (fun filteredItem =>
          jsToLower (cfg.itemToString filteredItem)) }

end DropdownSpec

namespace DropdownSpec

/-- C1 — In Multi mode the computed FilteredItems exclude every item of the
committed Value, for every item collection and search query, because the
value-difference step is applied before any search filtering; with a custom
search function the difference is likewise applied before delegating. -/
theorem c1_filteredItems_value_disjoint (cfg : Config) (s : DState) :
    cfg.multiple = true →
    ((cfg.search.builtin →
        ∀ x ∈ s.value.asList,
          x ∉ (getAutoControlledStateFromProps cfg s).filteredItems) ∧
      (∀ f, cfg.search = .custom f →
        (getAutoControlledStateFromProps cfg s).filteredItems =
          f (lodashDifference cfg.items s.value.asList) (s.searchQuery.getD ""))) := by
  intro hm
  have hdiff : ∀ x ∈ s.value.asList, x ∉ lodashDifference cfg.items s.value.asList := by
    intro x hx hcon
    rcases List.mem_filter.mp hcon with ⟨-, hdec⟩
    exact (of_decide_eq_true hdec) hx
  cases hs : cfg.search with
  | off =>
      constructor
      · intro _ x hx hmem
        simp only [getAutoControlledStateFromProps, hs, hm, if_true] at hmem
        exact hdiff x hx hmem
      · intro f hf
        cases hf
  | enabled =>
      constructor
      · intro _ x hx hmem
        simp only [getAutoControlledStateFromProps, hs, hm, if_true] at hmem
        exact hdiff x hx (List.mem_filter.mp hmem).1
      · intro f hf
        cases hf
  | custom f =>
      constructor
      · intro hb
        exact hb.elim
      · intro g hg
        cases hg
        simp only [getAutoControlledStateFromProps, hs, hm, if_true]

/-- A concrete multi-select search configuration over items `[X, Y, Z]`. -/
def cfgMultiSearchXYZ : Config :=
  { multiple := true, search := .enabled, highlightFirstItemOnOpen := false,
    itemToString := defaultItemToString, placeholder := none,
    items := [Item.prim "X", Item.prim "Y", Item.prim "Z"] }

/-- A concrete multi-select state with committed value `[Y]` and empty
search query. -/
def stateValueY : DState :=
  { a11ySelectionStatus := "", activeSelectedIndex := none,
    filteredItems := [], filteredItemStrings := [], startingString := "",
    openState := true, searchQuery := some "", highlightedIndex := none,
    value := .many [Item.prim "Y"] }

/-- Closed instance of C1: a concrete multi-select search dropdown with value
`[Y]` over items `[X, Y, Z]` never shows `Y` among the filtered items. -/
theorem c1_witness :
    Item.prim "Y" ∉
      (getAutoControlledStateFromProps cfgMultiSearchXYZ stateValueY).filteredItems :=
  (c1_filteredItems_value_disjoint cfgMultiSearchXYZ stateValueY rfl).1
    trivial (Item.prim "Y") (by decide)

end DropdownSpec

namespace DropdownSpec

/-- The categories of Downshift state-change types that
`getHighlightedIndexOnArrowKeyOpen` distinguishes: the two arrow-key open
reasons, and `other` for any remaining change type (a programmatic or pointer
open). -/
inductive OpenChangeType where
  | keyDownArrowUp
  | keyDownArrowDown
  | other
deriving DecidableEq, Repr

/-- JavaScript truthiness of the stored highlighted index: `null` and `0` are
falsy, every other number is truthy. -/
def jsTruthyIdx : Option Int → Bool
  | none => false
  | some n => !(n == 0)

/-- The single-select view of the value, as used by the
`items.indexOf(value)` call of the open-transition default logic. -/
def ShVal.asOne : ShVal → Option Item
  | .one v => v
  | .many _ => none

/-- JS `xs.indexOf(v)`: the first index of `v` in `xs`, or `-1` when absent
(and `-1` for a non-item value such as `null`). -/
def jsIndexOf (xs : List Item) (v : Option Item) : Int :=
  match v with
  | none => -1
  | some x => if x ∈ xs then (xs.indexOf x : Int) else -1

/-- TS `getHighlightedIndexOnArrowKeyOpen` (the Highlight Navigator on a
Closed-to-Open transition), translated branch for branch: a JS-truthy pending
`highlightedIndex` is returned as is (note that the index `0` is falsy and
falls through); then the `highlightFirstItemOnOpen` default; then the
single-select value-based default with its wrap checks against the filtered
item count; then the two arrow-key defaults; else `null`. -/
def getHighlightedIndexOnArrowKeyOpen (cfg : Config) (s : DState)
    (changeType : OpenChangeType) : Option Int :=
  let isArrowUp := changeType == OpenChangeType.keyDownArrowUp
  let isArrowDown := changeType == OpenChangeType.keyDownArrowDown
  let itemsLength : Int := s.filteredItems.length
  if jsTruthyIdx s.highlightedIndex then
    s.highlightedIndex
  else if cfg.highlightFirstItemOnOpen then
    some 0
  else if !cfg.multiple && !cfg.search.jsTruthy && jsTruthyVal s.value then
    let offset : Int := if isArrowUp then -1 else if isArrowDown then 1 else 0
    let newHighlightedIndex : Int := jsIndexOf cfg.items s.value.asOne + offset
    if newHighlightedIndex ≥ itemsLength then some 0
    else if newHighlightedIndex < 0 then some (itemsLength - 1)
    else some newHighlightedIndex
  else if isArrowDown then some 0
  else if isArrowUp then some (itemsLength - 1)
  else none

/-- TS `handleStateChange`, for a change that carries an `isOpen` value
(`changes.isOpen !== undefined`): a no-op when it equals the current open
flag; on an opening change the computed arrow-key-open highlight is committed
when it is a number (`_.isNumber`), otherwise the current highlight is kept;
on a closing change the highlight is cleared to `null`.  The trailing
highlight-only block of the source (lines 795-799) is skipped on these
transitions: on an open `this.state.open` is still the pre-update `false`,
and the change types that close the panel carry no numeric highlight. -/
def handleStateChange (cfg : Config) (s : DState) (isOpenChange : Option Bool)
    (changeType : OpenChangeType) : DState × List Event :=
  match isOpenChange with
  | none => (s, [])
  | some newOpen =>
      if newOpen == s.openState then (s, [])
      else if newOpen then
        let h := match getHighlightedIndexOnArrowKeyOpen cfg s changeType with
          | some n => some n
          | none => s.highlightedIndex
        ({ s with openState := true, highlightedIndex := h }, [Event.openChange])
      else
        ({ s with openState := false, highlightedIndex := none }, [Event.openChange])

end DropdownSpec

namespace DropdownSpec

/-- A concrete multi-select search configuration whose single item is already
committed, so that the derived candidate list is empty. -/
def cfgAllSelected : Config :=
  { multiple := true, search := .enabled, highlightFirstItemOnOpen := false,
    itemToString := defaultItemToString, placeholder := none,
    items := [Item.prim "X"] }

/-- The closed state of `cfgAllSelected` with value `[X]` and empty query,
with the derived fields computed by the Item Filter (the candidate list is
empty because the only item is committed). -/
def stateAllSelected : DState :=
  getAutoControlledStateFromProps cfgAllSelected
    { a11ySelectionStatus := "", activeSelectedIndex := none,
      filteredItems := [], filteredItemStrings := [], startingString := "",
      openState := false, searchQuery := some "", highlightedIndex := none,
      value := .many [Item.prim "X"] }

/-- C2 counterexample — opening with the up-arrow against an empty candidate
list does not yield the sentinel: the computed highlight is the out-of-range
`-1`, `_.isNumber (-1)` holds, and the open transition commits it, so the
resulting Open state has `HighlightedIndex = -1` with
`FilteredItems.length = 0`. -/
theorem c2_counterexample :
    stateAllSelected.filteredItems = [] ∧
    getHighlightedIndexOnArrowKeyOpen cfgAllSelected stateAllSelected
      .keyDownArrowUp = some (-1) ∧
    (handleStateChange cfgAllSelected stateAllSelected (some true)
      .keyDownArrowUp).1.openState = true ∧
    (handleStateChange cfgAllSelected stateAllSelected (some true)
      .keyDownArrowUp).1.highlightedIndex = some (-1) := by
  decide

/-- C2 as amended — computing the highlight on an open transition against an
empty candidate list (no JS-truthy pending highlight, multi mode) does not
guarantee the sentinel: with `highlightFirstItemOnOpen` unset, only a
non-arrow (programmatic) open yields `none`, while an up-arrow open yields
`-1` and a down-arrow open yields `0`; with `highlightFirstItemOnOpen` set,
every open reason yields `0`.  All of these numeric results are out of range
for an empty list, and the open transition commits them (see the
counterexample), so no highlight-bounds invariant holds for Open states. -/
theorem c2_empty_list_open_highlight (cfg : Config) (s : DState)
    (hw : jsTruthyIdx s.highlightedIndex = false)
    (hm : cfg.multiple = true)
    (he : s.filteredItems = []) :
    (cfg.highlightFirstItemOnOpen = false →
      getHighlightedIndexOnArrowKeyOpen cfg s .keyDownArrowUp = some (-1) ∧
      getHighlightedIndexOnArrowKeyOpen cfg s .keyDownArrowDown = some 0 ∧
      getHighlightedIndexOnArrowKeyOpen cfg s .other = none) ∧
    (cfg.highlightFirstItemOnOpen = true →
      ∀ ct, getHighlightedIndexOnArrowKeyOpen cfg s ct = some 0) := by
  constructor
  · intro hf
    unfold getHighlightedIndexOnArrowKeyOpen
    simp [hw, hf, hm, he]
  · intro hf ct
    unfold getHighlightedIndexOnArrowKeyOpen
    simp [hw, hf, hm, he]

/-- Closed instance of the amended C2, at the concrete all-selected state. -/
theorem c2_witness :
    getHighlightedIndexOnArrowKeyOpen cfgAllSelected stateAllSelected
      .keyDownArrowDown = some 0 :=
  ((c2_empty_list_open_highlight cfgAllSelected stateAllSelected
    (by decide) rfl (by decide)).1 rfl).2.1

/-- A concrete multi-select configuration with three items, none committed. -/
def cfgMultiABC : Config :=
  { multiple := true, search := .off, highlightFirstItemOnOpen := false,
    itemToString := defaultItemToString, placeholder := none,
    items := [Item.prim "A", Item.prim "B", Item.prim "C"] }

/-- A closed state of `cfgMultiABC` whose pending highlighted index is `0`. -/
def statePendingZero : DState :=
  { a11ySelectionStatus := "", activeSelectedIndex := none,
    filteredItems := [Item.prim "A", Item.prim "B", Item.prim "C"],
    filteredItemStrings := ["a", "b", "c"], startingString := "",
    openState := false, searchQuery := none, highlightedIndex := some 0,
    value := .many [] }

/-- C3 counterexample — a pending highlighted index of `0` is not kept on the
open transition: `0` is JS-falsy, so the pending-highlight branch falls
through and an up-arrow open lands on the last candidate instead. -/
theorem c3_counterexample :
    statePendingZero.highlightedIndex = some 0 ∧
    getHighlightedIndexOnArrowKeyOpen cfgMultiABC statePendingZero
      .keyDownArrowUp = some 2 := by
  decide

/-- C3 as amended — a pending highlighted index is kept on the open
transition, with precedence over every default, whenever it is nonzero; the
index `0` is treated as unset by the falsy check and falls through to the
defaults. -/
theorem c3_pending_nonzero_kept (cfg : Config) (s : DState) (h : Int)
    (hh : s.highlightedIndex = some h) (hnz : h ≠ 0) (ct : OpenChangeType) :
    getHighlightedIndexOnArrowKeyOpen cfg s ct = some h := by
  unfold getHighlightedIndexOnArrowKeyOpen
  simp [jsTruthyIdx, hh, hnz]

/-- A state of `cfgMultiABC` whose pending highlighted index is `2`. -/
def statePendingTwo : DState :=
  { statePendingZero with highlightedIndex := some 2 }

/-- Closed instance of the amended C3: a pending index of `2` is kept on a
down-arrow open. -/
theorem c3_witness :
    getHighlightedIndexOnArrowKeyOpen cfgMultiABC statePendingTwo
      .keyDownArrowDown = some 2 :=
  c3_pending_nonzero_kept cfgMultiABC statePendingTwo 2 rfl (by decide) _

end DropdownSpec

namespace DropdownSpec

/-- One wrap step of the open-transition default: offsetting an in-range index
by at most one and wrapping (at/above the count to 0, below zero to the last
index) agrees with the mod-the-count arithmetic. -/
theorem wrap_step_eq_emod (i n off : Int) (h0 : 0 ≤ i) (hlt : i < n)
    (hoff : off = -1 ∨ off = 0 ∨ off = 1) :
    (if i + off ≥ n then some (0 : Int) else if i + off < 0 then some (n - 1)
      else some (i + off)) = some ((i + off) % n) := by
  by_cases hge : i + off ≥ n
  · have hn : i + off = n := by omega
    rw [if_pos hge, hn, Int.emod_self]
  · rw [if_neg hge]
    by_cases hlt0 : i + off < 0
    · have hm1 : i + off = -1 := by omega
      have hrw : (-1 : Int) = (n - 1) + n * (-1) := by ring
      rw [if_pos hlt0, hm1, hrw, Int.add_mul_emod_self_left,
        Int.emod_eq_of_lt (by omega) (by omega)]
    · rw [if_neg hlt0, Int.emod_eq_of_lt (by omega) (by omega)]

/-- C5 — opening a single-select, non-search dropdown with a truthy committed
value, no pending highlight and `highlightFirstItemOnOpen` unset highlights
the index of the value in the full item collection offset by -1 for an up-arrow
open, +1 for a down-arrow open and 0 otherwise, wrapped modulo the candidate
count (below zero wraps to the last candidate, at/above the count wraps
to 0).  The `hsync` hypothesis states that the derived candidate list is the
one the Item Filter computes for this state, as the component maintains. -/
theorem c5_single_value_open_highlight (cfg : Config) (s : DState) (v : Item)
    (hm : cfg.multiple = false) (hs : cfg.search = .off)
    (hf : cfg.highlightFirstItemOnOpen = false)
    (hp : jsTruthyIdx s.highlightedIndex = false)
    (hv : s.value = .one (some v)) (ht : itemTruthy v = true)
    (hmem : v ∈ cfg.items)
    (hsync : s.filteredItems = (getAutoControlledStateFromProps cfg s).filteredItems) :
    getHighlightedIndexOnArrowKeyOpen cfg s .keyDownArrowUp =
      some (((cfg.items.indexOf v : Int) + -1) % (cfg.items.length : Int)) ∧
    getHighlightedIndexOnArrowKeyOpen cfg s .keyDownArrowDown =
      some (((cfg.items.indexOf v : Int) + 1) % (cfg.items.length : Int)) ∧
    getHighlightedIndexOnArrowKeyOpen cfg s .other =
      some (((cfg.items.indexOf v : Int) + 0) % (cfg.items.length : Int)) := by
  have hfil : s.filteredItems = cfg.items := by
    rw [hsync]
    simp [getAutoControlledStateFromProps, hs, hm]
  have hiNat : cfg.items.indexOf v < cfg.items.length :=
    List.indexOf_lt_length.2 hmem
  have h0 : (0 : Int) ≤ (cfg.items.indexOf v : Int) := Int.ofNat_nonneg _
  have hlt : ((cfg.items.indexOf v : Int)) < (cfg.items.length : Int) := by
    exact_mod_cast hiNat
  have hidx : jsIndexOf cfg.items (ShVal.one (some v)).asOne =
      (cfg.items.indexOf v : Int) := by
    simp [ShVal.asOne, jsIndexOf, hmem]
  refine ⟨?_, ?_, ?_⟩
  · refine Eq.trans ?_ (wrap_step_eq_emod (cfg.items.indexOf v : Int)
      (cfg.items.length : Int) (-1) h0 hlt (Or.inl rfl))
    simp [getHighlightedIndexOnArrowKeyOpen, hp, hf, hm, hs, hv, ht, hidx, hfil,
      SearchProp.jsTruthy, jsTruthyVal]
  · refine Eq.trans ?_ (wrap_step_eq_emod (cfg.items.indexOf v : Int)
      (cfg.items.length : Int) 1 h0 hlt (Or.inr (Or.inr rfl)))
    simp [getHighlightedIndexOnArrowKeyOpen, hp, hf, hm, hs, hv, ht, hidx, hfil,
      SearchProp.jsTruthy, jsTruthyVal]
  · refine Eq.trans ?_ (wrap_step_eq_emod (cfg.items.indexOf v : Int)
      (cfg.items.length : Int) 0 h0 hlt (Or.inr (Or.inl rfl)))
    simp [getHighlightedIndexOnArrowKeyOpen, hp, hf, hm, hs, hv, ht, hidx, hfil,
      SearchProp.jsTruthy, jsTruthyVal]

end DropdownSpec

namespace DropdownSpec

/-- A concrete single-select, non-search configuration over `[A, B, C]`. -/
def cfgSingleABC : Config :=
  { multiple := false, search := .off, highlightFirstItemOnOpen := false,
    itemToString := defaultItemToString, placeholder := none,
    items := [Item.prim "A", Item.prim "B", Item.prim "C"] }

/-- A closed single-select state of `cfgSingleABC` with committed value `B`
and no pending highlight; the derived fields match the Item Filter. -/
def stateValueB : DState :=
  { a11ySelectionStatus := "", activeSelectedIndex := none,
    filteredItems := [Item.prim "A", Item.prim "B", Item.prim "C"],
    filteredItemStrings := ["a", "b", "c"], startingString := "",
    openState := false, searchQuery := none, highlightedIndex := none,
    value := .one (some (Item.prim "B")) }

/-- Closed instance of C5: with value `B` (index 1 of 3), an up-arrow open
highlights index 0, a down-arrow open index 2, a programmatic open index 1. -/
theorem c5_witness :
    getHighlightedIndexOnArrowKeyOpen cfgSingleABC stateValueB
      .keyDownArrowUp = some 0 ∧
    getHighlightedIndexOnArrowKeyOpen cfgSingleABC stateValueB
      .keyDownArrowDown = some 2 ∧
    getHighlightedIndexOnArrowKeyOpen cfgSingleABC stateValueB
      .other = some 1 := by
  have h := c5_single_value_open_highlight cfgSingleABC stateValueB
    (Item.prim "B") rfl rfl rfl rfl rfl (by decide) (by decide) (by decide)
  refine ⟨?_, ?_, ?_⟩
  · rw [h.1]; decide
  · rw [h.2.1]; decide
  · rw [h.2.2]; decide

end DropdownSpec

namespace DropdownSpec

/-- TS `isValueEmpty`: an array is empty when its length is below one, any
other value exactly when it is JS-falsy. -/
def isValueEmpty : ShVal → Bool
  | .many vs => decide (vs.length < 1)
  | .one none => true
  | .one (some v) => !(itemTruthy v)

/-- TS `getSelectedItemAsString`: the placeholder when the value is empty
(an absent placeholder gives `undefined`, modelled `none`), the empty string
in Multi mode, else the `itemToString` projection of the single value.  The
two final fallback branches are not reached from the modelled call sites,
which always pass a present single item here when the value is non-empty. -/
def getSelectedItemAsString (cfg : Config) (value : ShVal) : Option String :=
  if isValueEmpty value then cfg.placeholder
  else if cfg.multiple then some ""
  else match value with
    | .one (some v) => some (cfg.itemToString v)
    | .one none => some ""
    | .many _ => some ""

/-- TS `handleSelectedChange` (the `select(item)` operation, invoked through
the Downshift `onChange` callback): commits the new value (append with no
dedup check in Multi mode, replace in Single mode), stores the selected-item
string as the search query, in Single mode records the index of the item in
the full item collection as the highlighted index, and emits one
selected-change notification.  The a11y announcement and the deferred
chip-strip scroll are transient side effects outside the state model. -/
def handleSelectedChange (cfg : Config) (s : DState) (item : Item) :
    DState × List Event :=
  let value' : ShVal :=
    if cfg.multiple then .many (s.value.asList ++ [item]) else .one (some item)
  let s1 := { s with value := value',
                     searchQuery := getSelectedItemAsString cfg (.one (some item)) }
  let s2 := if cfg.multiple then s1
            else { s1 with highlightedIndex := some (jsIndexOf cfg.items (some item)) }
  (s2, [Event.selectedChange])

/-- Modelled from the spec: the open/close effect of a selection is decided
by the external Downshift collaborator, whose source is not part of this
repository.  Per the specification a selection closes the panel in
single-select mode and keeps it open in multi-select mode, and the closing
`isOpen` state change (handled by `handleStateChange`) runs before the
`onChange` callback that runs `handleSelectedChange`. -/
def selectTransition (cfg : Config) (s : DState) (item : Item) :
    DState × List Event :=
  if cfg.multiple then handleSelectedChange cfg s item
  else
    let c := handleStateChange cfg s (some false) .other
    let r := handleSelectedChange cfg c.1 item
    (r.1, c.2 ++ r.2)

/-- TS `removeItemFromValue`: with an item argument filters every occurrence
of it out of the value (JS strict inequality), without an argument pops the
last element (a pop on an empty collection leaves it empty); emits one
selected-change notification.  The optional a11y removal announcement is a
transient side effect outside the state model. -/
def removeItemFromValue (_cfg : Config) (s : DState) (item : Option Item) :
    DState × List Event :=
  let value := s.value.asList
  let value' := match item with
    | some it => value.filter (fun currentElement => decide (currentElement ≠ it))
    | none => value.dropLast
  ({ s with value := .many value' }, [Event.selectedChange])

/-- TS `tryRemoveItemFromValue` (Backspace inside the search input): removes
the last chip when the dropdown is in multi mode, the search query is the
empty string or the caret is at position 0, and the value is non-empty;
otherwise it does nothing. -/
def tryRemoveItemFromValue (cfg : Config) (s : DState) (selectionStart : Nat) :
    DState × List Event :=
  if cfg.multiple &&
      (s.searchQuery == some "" || selectionStart == 0) &&
      decide (0 < s.value.asList.length) then
    removeItemFromValue cfg s none
  else (s, [])

/-- TS `getInitialAutoControlledState`: the initial/default state bundle.
The `null` and `undefined` defaults are both modelled as `none`, the
`undefined` initial derived fields as empty lists, and the `undefined`
non-search `startingString` as the empty string. -/
def getInitialAutoControlledState (cfg : Config) : DState :=
  { a11ySelectionStatus := "",
    activeSelectedIndex := none,
    filteredItems := [],
    filteredItemStrings := [],
    startingString := "",
    openState := false,
    searchQuery := if cfg.search.jsTruthy then some "" else none,
    highlightedIndex := if cfg.highlightFirstItemOnOpen then some 0 else none,
    value := if cfg.multiple then .many [] else .one none }

/-- TS `handleClear` (the `clear()` operation): reads the five reset fields
from the initial state bundle, emits one selected-change notification
carrying them, and applies them in a single state update; the subsequent
focus moves are outside the state model. -/
def handleClear (cfg : Config) (s : DState) : DState × List Event :=
  let i := getInitialAutoControlledState cfg
  ({ s with activeSelectedIndex := i.activeSelectedIndex,
            highlightedIndex := i.highlightedIndex,
            openState := i.openState,
            searchQuery := i.searchQuery,
            value := i.value },
   [Event.selectedChange])

/-- C9 — `clear()` resets Value, SearchQuery, HighlightedIndex,
ActiveSelectedIndex and OpenState to their configured empty defaults in a
single atomic state transition (the other fields stay untouched, and no
intermediate state is produced), emitting the selected-change notification
exactly once. -/
theorem c9_clear_resets_and_notifies_once (cfg : Config) (s : DState) :
    handleClear cfg s =
      ({ s with
          activeSelectedIndex := none,
          highlightedIndex := if cfg.highlightFirstItemOnOpen then some 0 else none,
          openState := false,
          searchQuery := if cfg.search.jsTruthy then some "" else none,
          value := if cfg.multiple then .many [] else .one none },
        [Event.selectedChange]) := rfl

/-- C8 — Backspace in an empty multi-select search field with the caret at
position 0 removes the last chip whenever Value is non-empty (emitting the
selected-change notification, not a no-op), and the same removal attempt on
an empty Value is a complete no-op that leaves the state unchanged and emits
nothing. -/
theorem c8_backspace_removes_last_chip (cfg : Config) (s : DState)
    (vs : List Item) (hv : s.value = .many vs) :
    (cfg.multiple = true → s.searchQuery = some "" → vs ≠ [] →
      tryRemoveItemFromValue cfg s 0 =
        ({ s with value := .many vs.dropLast }, [Event.selectedChange])) ∧
    (vs = [] → tryRemoveItemFromValue cfg s 0 = (s, [])) := by
  constructor
  · intro hm hq hne
    have hlen : 0 < vs.length := List.length_pos.mpr hne
    simp [tryRemoveItemFromValue, hm, hq, hv, ShVal.asList, hlen,
      removeItemFromValue]
  · intro hve
    rw [hve] at hv
    simp [tryRemoveItemFromValue, hv, ShVal.asList]

/-- A multi-select search state with chips `[X, Y]` and an empty query. -/
def stateChipsXY : DState :=
  { a11ySelectionStatus := "", activeSelectedIndex := none,
    filteredItems := [Item.prim "Z"], filteredItemStrings := [],
    startingString := "", openState := true, searchQuery := some "",
    highlightedIndex := none, value := .many [Item.prim "X", Item.prim "Y"] }

/-- Closed instance of C8: with chips `[X, Y]` and an empty search field,
Backspace at caret 0 leaves exactly `[X]`. -/
theorem c8_witness :
    tryRemoveItemFromValue cfgMultiSearchXYZ stateChipsXY 0 =
      ({ stateChipsXY with value := .many [Item.prim "X"] },
        [Event.selectedChange]) := by
  have h := (c8_backspace_removes_last_chip cfgMultiSearchXYZ stateChipsXY
    [Item.prim "X", Item.prim "Y"] rfl).1 rfl rfl (by decide)
  simpa using h

end DropdownSpec

namespace DropdownSpec

/-- A single-select search configuration with a placeholder and an item whose
JS value is falsy (the empty-string primitive). -/
def cfgSinglePlaceholder : Config :=
  { multiple := false, search := .enabled, highlightFirstItemOnOpen := false,
    itemToString := defaultItemToString, placeholder := some "Pick an option",
    items := [Item.prim "", Item.prim "A"] }

/-- An open state of `cfgSinglePlaceholder` with nothing committed. -/
def stateOpenNoValue : DState :=
  { a11ySelectionStatus := "", activeSelectedIndex := none,
    filteredItems := [Item.prim "", Item.prim "A"], filteredItemStrings := [],
    startingString := "", openState := true, searchQuery := some "",
    highlightedIndex := none, value := .one none }

/-- C6 counterexample — selecting the falsy empty-string primitive item in
Single mode does not set SearchQuery to the string projection of the item
(the empty string): `getSelectedItemAsString` takes its empty-value branch
and stores the placeholder instead. -/
theorem c6_counterexample :
    defaultItemToString (Item.prim "") = "" ∧
    (selectTransition cfgSinglePlaceholder stateOpenNoValue
      (Item.prim "")).1.searchQuery = some "Pick an option" := by
  decide

/-- C6 as amended — for every JS-truthy item: `select(item)` in Single mode
sets Value := item and SearchQuery := the string projection of item and
closes the panel; in Multi mode it appends item to the end of Value with no
dedup check, clears SearchQuery to the empty string, and leaves the open
state unchanged (the panel stays open).  For a falsy item (the empty-string
primitive) the search query is instead set to the placeholder. -/
theorem c6_select_effects (cfg : Config) (s : DState) (item : Item)
    (ht : itemTruthy item = true) :
    (cfg.multiple = true →
      (selectTransition cfg s item).1.value = .many (s.value.asList ++ [item]) ∧
      (selectTransition cfg s item).1.searchQuery = some "" ∧
      (selectTransition cfg s item).1.openState = s.openState) ∧
    (cfg.multiple = false →
      (selectTransition cfg s item).1.value = .one (some item) ∧
      (selectTransition cfg s item).1.searchQuery = some (cfg.itemToString item) ∧
      (selectTransition cfg s item).1.openState = false) := by
  have hne : isValueEmpty (ShVal.one (some item)) = false := by
    simp [isValueEmpty, ht]
  constructor
  · intro hm
    simp [selectTransition, handleSelectedChange, hm, getSelectedItemAsString, hne]
  · intro hm
    cases hso : s.openState <;>
      simp [selectTransition, handleSelectedChange, hm, getSelectedItemAsString,
        hne, handleStateChange, hso]

/-- Closed instance of the amended C6: in a multi-select dropdown with value
`[Y]`, selecting `X` appends it, clears the query and keeps the panel open. -/
theorem c6_witness :
    (selectTransition cfgMultiSearchXYZ stateValueY (Item.prim "X")).1.value =
      .many [Item.prim "Y", Item.prim "X"] ∧
    (selectTransition cfgMultiSearchXYZ stateValueY (Item.prim "X")).1.searchQuery =
      some "" ∧
    (selectTransition cfgMultiSearchXYZ stateValueY (Item.prim "X")).1.openState =
      stateValueY.openState :=
  (c6_select_effects cfgMultiSearchXYZ stateValueY (Item.prim "X") (by decide)).1 rfl

/-- The filtered items computed by the Item Filter depend only on the value
and the search query of the state. -/
theorem filteredItems_congr (cfg : Config) (s t : DState)
    (hval : s.value = t.value) (hq : s.searchQuery = t.searchQuery) :
    (getAutoControlledStateFromProps cfg s).filteredItems =
      (getAutoControlledStateFromProps cfg t).filteredItems := by
  cases h : cfg.search <;> simp [getAutoControlledStateFromProps, h, hval, hq]

/-- C7 counterexample — the round trip is not the identity when the selected
item is already a chip: with value `[X]`, `select(X)` then `remove(X)` leaves
the value empty, because the removal filters out every occurrence of `X`. -/
theorem c7_counterexample :
    stateAllSelected.value = .many [Item.prim "X"] ∧
    (removeItemFromValue cfgAllSelected
      (selectTransition cfgAllSelected stateAllSelected (Item.prim "X")).1
      (some (Item.prim "X"))).1.value = .many [] := by
  decide

/-- C7 as amended — in Multi mode, `select(item)` followed by `remove(item)`
restores Value to its pre-select content provided the item was not already
present in Value (removal filters out every occurrence of the item, so a
pre-existing duplicate would be lost), and for any unchanged search query the
Item Filter then recomputes exactly the pre-select FilteredItems. -/
theorem c7_select_remove_round_trip (cfg : Config) (s : DState) (item : Item)
    (vs : List Item) (hm : cfg.multiple = true) (hv : s.value = .many vs)
    (hnotin : item ∉ vs) :
    ((removeItemFromValue cfg
        (selectTransition cfg s item).1 (some item)).1.value = .many vs) ∧
    (∀ q, (getAutoControlledStateFromProps cfg
        { (removeItemFromValue cfg (selectTransition cfg s item).1 (some item)).1
            with searchQuery := q }).filteredItems =
      (getAutoControlledStateFromProps cfg
        { s with searchQuery := q }).filteredItems) := by
  have hfil2 : List.filter (fun x => decide (x ≠ item)) vs = vs :=
    List.filter_eq_self.2 (fun a ha => decide_eq_true (fun h => hnotin (h ▸ ha)))
  have hfil1 : List.filter (fun x => decide (x ≠ item)) [item] = [] := by simp
  have hval : (removeItemFromValue cfg
      (selectTransition cfg s item).1 (some item)).1.value = .many vs := by
    simp only [selectTransition, hm, if_true, handleSelectedChange,
      removeItemFromValue, hv, ShVal.asList]
    rw [List.filter_append, hfil1, hfil2, List.append_nil]
  refine ⟨hval, fun q => filteredItems_congr cfg _ _ ?_ rfl⟩
  show (removeItemFromValue cfg (selectTransition cfg s item).1 (some item)).1.value
      = s.value
  rw [hval, hv]

/-- Closed instance of the amended C7: with value `[Y]`, selecting then
removing the absent item `X` restores the value `[Y]`. -/
theorem c7_witness :
    (removeItemFromValue cfgMultiSearchXYZ
      (selectTransition cfgMultiSearchXYZ stateValueY (Item.prim "X")).1
      (some (Item.prim "X"))).1.value = .many [Item.prim "Y"] :=
  (c7_select_remove_round_trip cfgMultiSearchXYZ stateValueY (Item.prim "X")
    [Item.prim "Y"] rfl rfl (by decide)).1

end DropdownSpec

namespace DropdownSpec

/-- C10 counterexample — the index recorded by a Single-mode selection does
not act as the pending highlight on the next open when it is 0: selecting the
first item records index 0, but a subsequent down-arrow open computes index 1
(the falsy check of the pending-highlight branch skips a pending 0). -/
theorem c10_counterexample :
    cfgSingleABC.items.indexOf (Item.prim "A") = 0 ∧
    (selectTransition cfgSingleABC stateValueB
      (Item.prim "A")).1.highlightedIndex = some 0 ∧
    getHighlightedIndexOnArrowKeyOpen cfgSingleABC
      (getAutoControlledStateFromProps cfgSingleABC
        (selectTransition cfgSingleABC stateValueB (Item.prim "A")).1)
      .keyDownArrowDown = some 1 := by
  decide

/-- C10 as amended — in Single mode `select(item)` records the index of the
item in the full unfiltered item collection (not in FilteredItems) as the
highlighted index; the Downshift close that precedes the selection handler is
overwritten by it, so the recorded index survives the close; on the next open
transition (after the derived fields are recomputed) the pending-highlight
branch returns exactly this index whenever it is nonzero — a recorded index
of 0 is treated as unset by the falsy check and falls to the defaults. -/
theorem c10_select_records_item_index (cfg : Config) (s : DState) (item : Item)
    (hm : cfg.multiple = false) (hmem : item ∈ cfg.items) :
    ((selectTransition cfg s item).1.highlightedIndex
        = some (cfg.items.indexOf item : Int)) ∧
    (∀ ct, (cfg.items.indexOf item : Int) ≠ 0 →
      getHighlightedIndexOnArrowKeyOpen cfg
        (getAutoControlledStateFromProps cfg (selectTransition cfg s item).1) ct
        = some (cfg.items.indexOf item : Int)) := by
  have hidx : jsIndexOf cfg.items (some item) = (cfg.items.indexOf item : Int) := by
    simp [jsIndexOf, hmem]
  have h1 : (selectTransition cfg s item).1.highlightedIndex
      = some (cfg.items.indexOf item : Int) := by
    cases hso : s.openState <;>
      simp [selectTransition, hm, handleStateChange, handleSelectedChange, hso, hidx]
  refine ⟨h1, fun ct hnz => ?_⟩
  have h2 : (getAutoControlledStateFromProps cfg
      (selectTransition cfg s item).1).highlightedIndex
      = some (cfg.items.indexOf item : Int) := by
    rw [← h1]
    cases hcs : cfg.search <;> simp [getAutoControlledStateFromProps, hcs]
  simp [getHighlightedIndexOnArrowKeyOpen, jsTruthyIdx, h2, hnz]

/-- Closed instance of the amended C10: selecting `B` (index 1) records
highlight 1, and a subsequent programmatic open keeps it. -/
theorem c10_witness :
    (selectTransition cfgSingleABC stateValueB
      (Item.prim "B")).1.highlightedIndex = some 1 ∧
    getHighlightedIndexOnArrowKeyOpen cfgSingleABC
      (getAutoControlledStateFromProps cfgSingleABC
        (selectTransition cfgSingleABC stateValueB (Item.prim "B")).1)
      .other = some 1 := by
  have h := c10_select_records_item_index cfgSingleABC stateValueB
    (Item.prim "B") rfl (by decide)
  exact ⟨h.1.trans (by decide), (h.2 .other (by decide)).trans (by decide)⟩

end DropdownSpec

namespace DropdownSpec

/-- JS `t.startsWith(pre)`, over the character list of the strings. -/
def jsStartsWith (t pre : String) : Bool :=
  pre.toList.isPrefixOf t.toList

/-- lodash `_.findIndex(xs, p, fromIndex)`: scan forward from `fromIndex`
(a negative `fromIndex` counts from the end, clamped at 0) and return the
first matching index, or -1 when nothing matches. -/
def findIndexFromJs (xs : List String) (p : String → Bool) (fromIndex : Int) : Int :=
  let start : Nat :=
    if fromIndex < 0 then (max ((xs.length : Int) + fromIndex) 0).toNat
    else fromIndex.toNat
  match (xs.drop start).findIdx? p with
  | some i => ((start + i : Nat) : Int)
  | none => -1

/-- TS `setHighlightedIndexOnCharKeyDown` (type-ahead, non-search dropdowns
only): appends the lower-cased key to the starting string (stored through
`setStartingString`, whose debounce timer is outside the state model); when
an index is highlighted, scans the string projections forward from
`highlightedIndex + (startingString.length > 0 ? 0 : 1)` for the first entry
starting with the accumulated buffer; when that finds nothing (or nothing was
highlighted) scans again from index 0; commits the found index, and otherwise
leaves the highlight unchanged. -/
def setHighlightedIndexOnCharKeyDown (s : DState) (keyString : String) : DState :=
  let newStartingString := s.startingString ++ jsToLower keyString
  let s1 := { s with startingString := newStartingString }
  let i0 : Int := match s.highlightedIndex with
    | some h =>
        findIndexFromJs s.filteredItemStrings
          (fun item => jsStartsWith item newStartingString)
          (h + (if 0 < s.startingString.length then 0 else 1))
    | none => -1
  let newHighlightedIndex : Int :=
    if i0 < 0 then
      findIndexFromJs s.filteredItemStrings
        (fun item => jsStartsWith item newStartingString) 0
    else i0
  if 0 ≤ newHighlightedIndex then
    { s1 with highlightedIndex := some newHighlightedIndex }
  else s1

/-- The default branch of TS `handleListKeyDown`: a key whose character
matches `/[a-zA-Z0-9]/` is accepted and drives the type-ahead; any other key
leaves the state alone there. -/
def handleListCharKeyDown (s : DState) (c : Char) : DState :=
  if c.isAlphanum then setHighlightedIndexOnCharKeyDown s (String.singleton c)
  else s

/-- First index at or after `k` whose entry satisfies `p`. -/
def firstMatchFrom (xs : List String) (p : String → Bool) (k : Nat) : Option Nat :=
  ((xs.drop k).findIdx? p).map (fun i => k + i)

/-- The type-ahead scan exactly as the claim words it, for comparison with
the source: scan for the first projection starting with the buffer, beginning
just after the currently highlighted index — or from index 0 if no index is
highlighted or the buffer was just started; wrap to a scan from index 0 if
nothing matches forward; if nothing matches at all the highlight is
unchanged. -/
def claimTypeAheadIndex (strings : List String) (h : Option Int)
    (bufferJustStarted : Bool) (buf : String) : Option Int :=
  let p := fun item => jsStartsWith item buf
  match h with
  | none => (firstMatchFrom strings p 0).map (fun i => (i : Int))
  | some hh =>
      let start : Nat := if bufferJustStarted then 0 else hh.toNat + 1
      match firstMatchFrom strings p start with
      | some i => some ((i : Nat) : Int)
      | none =>
          match firstMatchFrom strings p 0 with
          | some i => some ((i : Nat) : Int)
          | none => some hh

/-- The type-ahead scan as amended to match the source: when an index is
highlighted, the forward scan begins at the highlighted index itself when
extending an existing buffer and just after it when the key starts a new
buffer; with no highlighted index the scan runs from index 0; it wraps to a
scan from index 0 when nothing matches forward, and the highlight is
unchanged when nothing matches at all. -/
def amendedTypeAheadIndex (strings : List String) (h : Option Int)
    (extending : Bool) (buf : String) : Option Int :=
  let p := fun item => jsStartsWith item buf
  match h with
  | none => (firstMatchFrom strings p 0).map (fun i => (i : Int))
  | some hh =>
      let start : Nat := hh.toNat + (if extending then 0 else 1)
      match firstMatchFrom strings p start with
      | some i => some ((i : Nat) : Int)
      | none =>
          match firstMatchFrom strings p 0 with
          | some i => some ((i : Nat) : Int)
          | none => some hh

/-- For a non-negative start index the lodash scan agrees with
`firstMatchFrom`. -/
theorem findIndexFromJs_nonneg (xs : List String) (p : String → Bool) (i : Int)
    (h : 0 ≤ i) :
    findIndexFromJs xs p i =
      match firstMatchFrom xs p i.toNat with
      | some j => ((j : Nat) : Int)
      | none => -1 := by
  unfold findIndexFromJs firstMatchFrom
  rw [if_neg (by omega)]
  cases hf : (xs.drop i.toNat).findIdx? p <;> simp [hf]

/-- The type-ahead handler always stores the lower-cased extended buffer. -/
theorem setHighlightedIndexOnCharKeyDown_startingString (s : DState)
    (k : String) :
    (setHighlightedIndexOnCharKeyDown s k).startingString =
      s.startingString ++ jsToLower k := by
  unfold setHighlightedIndexOnCharKeyDown
  cases s.highlightedIndex <;>
    simp only [apply_ite DState.startingString, ite_self]

end DropdownSpec

namespace DropdownSpec

/-- The type-ahead handler computes exactly the amended scan: the source scan
start `highlightedIndex + (startingString.length > 0 ? 0 : 1)` is the
highlighted index itself when extending a buffer and the next index when
starting one, and a failed forward scan wraps to a scan from 0, a fully
failed scan leaving the highlight as it was. -/
theorem setHighlightedIndexOnCharKeyDown_highlight (s : DState) (k : String)
    (hnn : ∀ hh, s.highlightedIndex = some hh → 0 ≤ hh) :
    (setHighlightedIndexOnCharKeyDown s k).highlightedIndex =
      amendedTypeAheadIndex s.filteredItemStrings s.highlightedIndex
        (decide (0 < s.startingString.length))
        (s.startingString ++ jsToLower k) := by
  unfold setHighlightedIndexOnCharKeyDown amendedTypeAheadIndex
  cases hidx : s.highlightedIndex with
  | none =>
      cases hm : firstMatchFrom s.filteredItemStrings
          (fun item => jsStartsWith item (s.startingString ++ jsToLower k)) 0 with
      | none => simp [findIndexFromJs_nonneg, hm, hidx]
      | some j => simp [findIndexFromJs_nonneg, hm]
  | some hv =>
      have h0 : 0 ≤ hv := hnn hv hidx
      have hfr : (0 : Int) ≤ hv + (if 0 < s.startingString.length then 0 else 1) := by
        split <;> omega
      dsimp only
      rw [findIndexFromJs_nonneg _ _ _ hfr]
      have ht : (hv + (if 0 < s.startingString.length then (0 : Int) else 1)).toNat
          = hv.toNat + (if decide (0 < s.startingString.length) = true then 0 else 1) := by
        by_cases hl : 0 < s.startingString.length <;> simp [hl] <;> omega
      rw [ht]
      cases hm1 : firstMatchFrom s.filteredItemStrings
          (fun item => jsStartsWith item (s.startingString ++ jsToLower k))
          (hv.toNat + if decide (0 < s.startingString.length) = true then 0 else 1) with
      | some i =>
          have hnlt : ¬((i : Nat) : Int) < 0 := by omega
          have hge : (0 : Int) ≤ ((i : Nat) : Int) := by omega
          simp [hm1, hnlt, hge]
      | none =>
          cases hm2 : firstMatchFrom s.filteredItemStrings
              (fun item => jsStartsWith item (s.startingString ++ jsToLower k)) 0 with
          | none => simp [findIndexFromJs_nonneg, hm1, hm2, hidx]
          | some j => simp [findIndexFromJs_nonneg, hm1, hm2]

/-- C4 as amended — an accepted alphanumeric key appends its lower-cased
character to the type-ahead buffer and moves the highlight to the first
candidate string projection starting with the accumulated buffer, scanning
forward from the highlighted index itself when extending an existing buffer
and from just after it when the key starts a new buffer (from index 0 when no
index is highlighted), wrapping to a scan from index 0 when nothing matches
forward, and leaving the highlight unchanged when nothing matches at all. -/
theorem c4_typeahead_appends_and_scans (s : DState) (c : Char)
    (hc : c.isAlphanum = true)
    (hnn : ∀ hh, s.highlightedIndex = some hh → 0 ≤ hh) :
    (handleListCharKeyDown s c).startingString =
      s.startingString ++ jsToLower (String.singleton c) ∧
    (handleListCharKeyDown s c).highlightedIndex =
      amendedTypeAheadIndex s.filteredItemStrings s.highlightedIndex
        (decide (0 < s.startingString.length))
        (s.startingString ++ jsToLower (String.singleton c)) := by
  unfold handleListCharKeyDown
  rw [if_pos hc]
  exact ⟨setHighlightedIndexOnCharKeyDown_startingString s _,
    setHighlightedIndexOnCharKeyDown_highlight s _ hnn⟩

/-- An open non-search state with projections `["ab", "xx", "ac"]`, highlight
on index 1 and an empty type-ahead buffer. -/
def stateTypeAhead : DState :=
  { a11ySelectionStatus := "", activeSelectedIndex := none,
    filteredItems := [Item.prim "AB", Item.prim "XX", Item.prim "AC"],
    filteredItemStrings := ["ab", "xx", "ac"], startingString := "",
    openState := true, searchQuery := none, highlightedIndex := some 1,
    value := .one none }

/-- C4 counterexample — with highlight 1 and a freshly started buffer, typing
`a` moves the highlight to index 2 (the source scans from
`highlightedIndex + 1`), while the scan as the claim words it (from index 0
when the buffer was just started) would pick index 0. -/
theorem c4_counterexample :
    stateTypeAhead.startingString = "" ∧
    (handleListCharKeyDown stateTypeAhead 'a').highlightedIndex = some 2 ∧
    claimTypeAheadIndex stateTypeAhead.filteredItemStrings
      stateTypeAhead.highlightedIndex true "a" = some 0 := by
  decide

/-- Closed instance of the amended C4 at the concrete type-ahead state. -/
theorem c4_witness :
    (handleListCharKeyDown stateTypeAhead 'a').startingString = "a" ∧
    (handleListCharKeyDown stateTypeAhead 'a').highlightedIndex = some 2 := by
  have h := c4_typeahead_appends_and_scans stateTypeAhead 'a' (by decide)
    (fun hh hx => by simp [stateTypeAhead] at hx; omega)
  exact ⟨h.1.trans (by decide), h.2.trans (by decide)⟩

end DropdownSpec
